import Mathlib

/-!
Verification development for the `send-email-mcp` repository (`src/main.py`).

The program is a thin MCP server around the Resend transactional-email HTTP
API.  We give a shallow embedding of its three pieces of logic:

* `send_email` — the tool handler: extracts the API key and sender address
  from the inbound request headers, validates that at least one body variant
  is present, and delegates to `send_email_via_resend`.
* `send_email_via_resend` — builds the outbound JSON payload and the HTTP
  request (method, URL, headers, timeout); on the response side,
  `handleResponse` maps the provider response to a result or a raised error.
* `get_email_template` — the pure template resource.

Python `raise ValueError(msg)` is modelled as `Except.error (PyErr.valueError
msg)`; the uncaught JSON-decode failure on a 2xx body that is not valid JSON
is `PyErr.jsonDecodeError`.  An `Except.error` outcome in `send_email` means
the function raised before the outbound HTTP call was issued; the `.ok` value
is the full description of the single outbound request the code then makes.
The network itself is external: `handleResponse` takes the provider response
(status code, parsed JSON body when the body is valid JSON, raw text) and
returns what the dispatcher returns or raises.
-/

namespace ResendMcp

/-- JSON values, as produced by Python `json.loads` / passed to the `json=`
argument of `httpx`.  Numbers are modelled as integers (no claim involves
non-integral numbers). -/
inductive Json where
  | null : Json
  | bool : Bool → Json
  | num : Int → Json
  | str : String → Json
  | arr : List Json → Json
  | obj : List (String × Json) → Json

mutual

/-- Python `str()` of a parsed-JSON value (used when the provider error
`message` field is interpolated into an f-string), together with Python
`repr` for the nested cases.  `"\x7b"`/`"\x7d"` are literal braces. -/
def pyStr : Json → String
  | .str s => s
  | j => pyRepr j

def pyRepr : Json → String
  | .null => "None"
  | .bool true => "True"
  | .bool false => "False"
  | .num n => toString n
  | .str s => "\x27" ++ s ++ "\x27"
  | .arr l => "[" ++ pyReprElems l ++ "]"
  | .obj l => "\x7b" ++ pyReprFields l ++ "\x7d"

def pyReprElems : List Json → String
  | [] => ""
  | [j] => pyRepr j
  | j :: rest => pyRepr j ++ ", " ++ pyReprElems rest

def pyReprFields : List (String × Json) → String
  | [] => ""
  | [(k, v)] => "\x27" ++ k ++ "\x27: " ++ pyRepr v
  | (k, v) :: rest => "\x27" ++ k ++ "\x27: " ++ pyRepr v ++ ", " ++ pyReprFields rest

end

/-- `reply_to` may be a single address or a list of addresses
(`Optional[list[str] | str]` in the source). -/
inductive ReplyTo where
  | single : String → ReplyTo
  | multiple : List String → ReplyTo

/-- The arguments of the `send_email` tool (the SendRequest).  `to_emails`
and `subject` are required; everything else defaults to `None`.  Attachments
and tags are lists of JSON dicts in the source and are passed through
opaquely, so they are modelled as `List Json`. -/
structure SendArgs where
  to_emails : List String
  subject : String
  html_content : Option String := none
  text_content : Option String := none
  cc_emails : Option (List String) := none
  bcc_emails : Option (List String) := none
  reply_to : Option ReplyTo := none
  scheduled_at : Option String := none
  attachments : Option (List Json) := none
  tags : Option (List Json) := none

/-- Python truthiness of an `Optional[str]`: `None` and `""` are falsy. -/
def strTruthy : Option String → Bool
  | none => false
  | some s => s ≠ ""

/-- Python truthiness of an `Optional[list]`: `None` and `[]` are falsy. -/
def listTruthy {α : Type} : Option (List α) → Bool
  | none => false
  | some l => !l.isEmpty

/-- Python truthiness of the `reply_to` argument: `None`, `""` and `[]` are
falsy. -/
def replyTruthy : Option ReplyTo → Bool
  | none => false
  | some (.single s) => s ≠ ""
  | some (.multiple l) => !l.isEmpty

/-- Payload entry for an `Optional[str]` field: `if v: payload[key] = v`
adds the key only when the value is non-`None` and non-empty. -/
def strEntry (key : String) : Option String → List (String × Json)
  | none => []
  | some s => if s = "" then [] else [(key, Json.str s)]

/-- Payload entry for an `Optional[list[str]]` field: an empty list is falsy
in Python, so the key is added only for a non-`None`, non-empty list. -/
def strListEntry (key : String) : Option (List String) → List (String × Json)
  | none => []
  | some l => if l.isEmpty then [] else [(key, Json.arr (l.map Json.str))]

/-- Payload entry for `reply_to` (`if reply_to: payload["reply_to"] = reply_to`):
an empty string or empty list is falsy. -/
def replyToEntry : Option ReplyTo → List (String × Json)
  | none => []
  | some (.single s) => if s = "" then [] else [("reply_to", Json.str s)]
  | some (.multiple l) => if l.isEmpty then [] else [("reply_to", Json.arr (l.map Json.str))]

/-- Payload entry for an `Optional[list[dict]]` field (attachments, tags). -/
def jsonListEntry (key : String) : Option (List Json) → List (String × Json)
  | none => []
  | some l => if l.isEmpty then [] else [(key, Json.arr l)]

/-- Resend API base URL (`RESEND_API_BASE_URL` in the source). -/
def RESEND_API_BASE_URL : String := "https://api.resend.com"

/-- The outbound JSON payload built by `_send_email_via_resend` lines 70-98:
`from`, `to`, `subject` unconditionally, then each optional field appended
only when truthy, in source order. -/
def buildPayload (sender_email : String) (a : SendArgs) : List (String × Json) :=
  [("from", Json.str sender_email),
   ("to", Json.arr (a.to_emails.map Json.str)),
   ("subject", Json.str a.subject)]
  ++ strEntry "html" a.html_content
  ++ strEntry "text" a.text_content
  ++ strListEntry "cc" a.cc_emails
  ++ strListEntry "bcc" a.bcc_emails
  ++ replyToEntry a.reply_to
  ++ strEntry "scheduled_at" a.scheduled_at
  ++ jsonListEntry "attachments" a.attachments
  ++ jsonListEntry "tags" a.tags

/-- Description of the single outbound HTTP request issued by
`_send_email_via_resend` (`client.post(url, headers=request_headers,
json=payload)` with `httpx.AsyncClient(timeout=30.0)`). -/
structure OutboundRequest where
  method : String
  url : String
  headers : List (String × String)
  timeoutSeconds : Nat
  body : List (String × Json)

/-- `_send_email_via_resend`, up to the point the outbound request is issued:
the URL, the request headers dict (`Content-Type`, then `Authorization:
Bearer <api_key>`), the 30-second client timeout, and the payload.  Logging
is omitted (it writes no observable state). -/
def send_email_via_resend (api_key : String) (sender_email : String)
    (a : SendArgs) : OutboundRequest :=
  { method := "POST"
    url := RESEND_API_BASE_URL ++ "/emails"
    headers := [("Content-Type", "application/json"),
                ("Authorization", "Bearer " ++ api_key)]
    timeoutSeconds := 30
    body := buildPayload sender_email a }

/-- Exact lookup in the inbound header mapping returned by
`get_http_headers()` (a Python dict; `.get` matches keys exactly). -/
def headerGet (headers : List (String × String)) (k : String) : Option String :=
  (headers.find? (fun p => p.1 = k)).map (fun p => p.2)

/-- Python `headers.get(k1) or headers.get(k2) or ...`: the value of the
first lookup that is truthy (non-`None`, non-empty).  When every lookup is
falsy the overall expression is falsy, modelled as `none` (the code only
tests the result for truthiness and then uses it, so collapsing final `""`
to `none` is observationally faithful). -/
def firstTruthyHeader (headers : List (String × String)) : List String → Option String
  | [] => none
  | k :: ks =>
    match headerGet headers k with
    | some v => if v = "" then firstTruthyHeader headers ks else some v
    | none => firstTruthyHeader headers ks

/-- The three literal header-name spellings the handler tries for the API
key (src/main.py lines 333-337). -/
def apiKeyHeaderNames : List String :=
  ["x-resend-api-key", "X-RESEND-API-KEY", "X-Resend-Api-Key"]

/-- The three literal header-name spellings the handler tries for the sender
address (src/main.py lines 338-342). -/
def senderHeaderNames : List String :=
  ["x-sender-email", "X-SENDER-EMAIL", "X-Sender-Email"]

/-- `api_key = headers.get("x-resend-api-key") or headers.get("X-RESEND-API-KEY")
or headers.get("X-Resend-Api-Key")`. -/
def extractApiKey (headers : List (String × String)) : Option String :=
  firstTruthyHeader headers apiKeyHeaderNames

/-- `sender_email = headers.get("x-sender-email") or headers.get("X-SENDER-EMAIL")
or headers.get("X-Sender-Email")`. -/
def extractSenderEmail (headers : List (String × String)) : Option String :=
  firstTruthyHeader headers senderHeaderNames

/-- Raised Python exceptions: `ValueError(msg)`, and the uncaught
`json.JSONDecodeError` when a 2xx response body is not valid JSON. -/
inductive PyErr where
  | valueError : String → PyErr
  | jsonDecodeError : PyErr

/-- Message of the `ValueError` raised when no truthy API-key header is
found (src/main.py lines 344-349). -/
def msgMissingApiKey : String :=
  "Missing X-RESEND-API-KEY header. Please provide your Resend API key."

/-- Message of the `ValueError` raised when no truthy sender header is
found (src/main.py lines 351-355). -/
def msgMissingSender : String :=
  "Missing X-SENDER-EMAIL header. Please provide sender email address."

/-- Message of the `ValueError` raised when neither body variant is truthy
(src/main.py lines 357-361). -/
def msgMissingBody : String :=
  "At least one of html_content or text_content must be provided."

/-- The `send_email` tool handler (src/main.py lines 270-378): extract the
API key and sender address from the inbound headers, check them and the body
in that order, then build the single outbound request.  An `.error` outcome
is a raise before any outbound HTTP call. -/
def send_email (reqHeaders : List (String × String)) (a : SendArgs) :
    Except PyErr OutboundRequest :=
  match extractApiKey reqHeaders with
  | none => .error (.valueError msgMissingApiKey)
  | some api_key =>
    match extractSenderEmail reqHeaders with
    | none => .error (.valueError msgMissingSender)
    | some sender_email =>
      if !strTruthy a.html_content && !strTruthy a.text_content then
        .error (.valueError msgMissingBody)
      else
        .ok (send_email_via_resend api_key sender_email a)

/-- The provider's HTTP response as seen by the handler: status code, the
parsed JSON body when the body is valid JSON (`none` when `response.json()`
would raise), and the raw response text. -/
structure ResendResponse where
  status_code : Nat
  jsonBody : Option Json
  text : String

/-- Exact lookup of a field in a parsed JSON object (`dict.get`). -/
def lookupField (fields : List (String × Json)) (k : String) : Option Json :=
  (fields.find? (fun p => p.1 = k)).map (fun p => p.2)

/-- The error-message extraction on a non-2xx response (src/main.py lines
143-147): `error_details = e.response.json(); error_message =
error_details.get("message", "Unknown error")`, and the bare `except` falls
back to `e.response.text` both when the body is not valid JSON and when the
parsed body is not a dict (where `.get` raises `AttributeError`). -/
def error_message (r : ResendResponse) : String :=
  match r.jsonBody with
  | some (.obj fields) =>
    match lookupField fields "message" with
    | some v => pyStr v
    | none => "Unknown error"
  | some _ => r.text
  | none => r.text

/-- Message of the `ValueError` raised for a 401/403 provider response. -/
def authFailedMsg (m : String) : String :=
  "Authentication failed: " ++ m ++
    ". Please check your API key and sender domain verification."

/-- Message of the `ValueError` raised for any other non-2xx provider
response.  Note the provider's numeric status appears only in the log line,
not in the raised error. -/
def providerErrMsg (m : String) : String :=
  "Resend API error: " ++ m

/-- Response handling in `_send_email_via_resend` (src/main.py lines
126-157): `response.raise_for_status()` raises `httpx.HTTPStatusError` for
every non-2xx status; on success `response.json()` is returned unchanged
(raising an uncaught decode error when the 2xx body is not valid JSON); on
`HTTPStatusError` a `ValueError` is raised whose message embeds
`error_message`, with the 401/403 authentication-failure variant. -/
def handleResponse (r : ResendResponse) : Except PyErr Json :=
  if 200 ≤ r.status_code ∧ r.status_code < 300 then
    match r.jsonBody with
    | some j => .ok j
    | none => .error .jsonDecodeError
  else
    if r.status_code = 401 ∨ r.status_code = 403 then
      .error (.valueError (authFailedMsg (error_message r)))
    else
      .error (.valueError (providerErrMsg (error_message r)))

/-- Python `str.strip()`: remove leading and trailing whitespace (space,
tab, newline, vertical tab, form feed, carriage return). -/
def isPySpace (c : Char) : Bool :=
  c = ' ' || c = '\t' || c = '\n' || c = '\x0b' || c = '\x0c' || c = '\r'

/-- Python `s.strip()`, defined structurally over the character list so that
it evaluates inside the kernel. -/
def pyStrip (s : String) : String :=
  String.mk (((s.data.dropWhile isPySpace).reverse.dropWhile isPySpace).reverse)

/-- The HTML body of the template (src/main.py lines 181-243), as rendered
by the f-string: `\x7b\x7b`/`\x7d\x7d` in the source render to the single
literal braces `\x7b`/`\x7d` here, and `\x7bproperty_reference\x7d` is
interpolated. -/
def templateHtml (property_reference : String) : String :=
  "\n<!DOCTYPE html>\n<html>\n<head>\n    <style>\n        body \x7b \n            font-family: -apple-system, BlinkMacSystemFont, \x27Segoe UI\x27, Roboto, \x27Helvetica Neue\x27, Arial, sans-serif;\n            line-height: 1.6; \n            color: #2c3e50;\n            margin: 0;\n            padding: 0;\n        \x7d\n        .container \x7b \n            max-width: 600px; \n            margin: 20px auto; \n            padding: 0;\n        \x7d\n        .content \x7b \n            padding: 30px;\n            background-color: #ffffff;\n        \x7d\n        .greeting \x7b\n            font-size: 16px;\n            margin-bottom: 20px;\n        \x7d\n        .message \x7b\n            margin: 20px 0;\n            font-size: 15px;\n        \x7d\n        .signature \x7b\n            margin-top: 30px;\n            font-size: 15px;\n        \x7d\n        .footer \x7b\n            margin-top: 20px;\n            padding-top: 20px;\n            border-top: 1px solid #e5e7eb;\n            color: #6b7280;\n            font-size: 13px;\n        \x7d\n    </style>\n</head>\n<body>\n    <div class=\"container\">\n        <div class=\"content\">\n            <div class=\"greeting\">\n                Hello,\n            </div>\n            <div class=\"message\">\n                <p>I am writing to express my interest in this property and would like to schedule a viewing at your earliest convenience.</p>\n                <p>I look forward to hearing from you soon.</p>\n            </div>\n            <div class=\"signature\">\n                <p>Best regards</p>\n            </div>\n            <div class=\"footer\">\n                <p>Regarding: " ++ property_reference ++ "</p>\n            </div>\n        </div>\n    </div>\n</body>\n</html>\n    "

/-- The plain-text body of the template (src/main.py lines 245-254). -/
def templateText (property_reference : String) : String :=
  "Hello,\n\nI am writing to express my interest in this property and would like to schedule a viewing at your earliest convenience.\n\nI look forward to hearing from you soon.\n\nBest regards\n\n---\nRegarding: " ++ property_reference

/-- `get_email_template` (src/main.py lines 165-263): the JSON document the
resource builds for a property-reference token.  The source serializes this
object with `json.dumps(..., indent=2)`; the embedding returns the document
itself.  The default token in the source is `"the property"`. -/
def get_email_template (property_reference : String) : Json :=
  Json.obj
    [("subject", Json.str ("Inquiry regarding " ++ property_reference)),
     ("html", Json.str (pyStrip (templateHtml property_reference))),
     ("text", Json.str (pyStrip (templateText property_reference)))]

/-! ## Helper lemmas -/

/-- The `or`-chain over header lookups is falsy exactly when every tried
header name is absent or maps to the empty string. -/
theorem firstTruthyHeader_eq_none_iff (hs : List (String × String)) (ks : List String) :
    firstTruthyHeader hs ks = none ↔
      ∀ k ∈ ks, headerGet hs k = none ∨ headerGet hs k = some "" := by
  induction ks with
  | nil => simp [firstTruthyHeader]
  | cons k ks ih =>
    cases h : headerGet hs k with
    | none => simp [firstTruthyHeader, h, ih]
    | some v =>
      by_cases hv : v = ""
      · subst hv
        simp [firstTruthyHeader, h, ih]
      · simp [firstTruthyHeader, h, hv, ih]

/-- A header name that appears as the key of no inbound header pair looks up
to nothing. -/
theorem headerGet_eq_none (hs : List (String × String)) (k : String)
    (h : ∀ p ∈ hs, p.1 ≠ k) : headerGet hs k = none := by
  have hfind : hs.find? (fun p => p.1 = k) = none := by
    rw [List.find?_eq_none]
    intro p hp
    simp [h p hp]
  simp [headerGet, hfind]

/-! ## Claims -/

/-- C1 counterexample: the claim asserts that every request missing both
bodies fails with the ValidationError ("At least one of html_content or
text_content must be provided.").  But when the credential header is also
missing, `send_email` raises the missing-API-key `ValueError` instead — a
different error — so the claim as stated is false. -/
theorem C1_counterexample :
    send_email [] { to_emails := ["a@x.com"], subject := "Hi" } =
      .error (.valueError msgMissingApiKey) ∧
    msgMissingApiKey ≠ msgMissingBody :=
  ⟨rfl, by decide⟩

/-- C1 (amended): for every request whose credential and sender headers
extract successfully, if both `html_content` and `text_content` are falsy
(absent or empty), `send_email` raises the ValidationError "At least one of
html_content or text_content must be provided." and returns no outbound
request (no outbound HTTP call is made). -/
theorem C1_missing_body (hs : List (String × String)) (a : SendArgs)
    (k s : String)
    (hk : extractApiKey hs = some k) (hs2 : extractSenderEmail hs = some s)
    (hh : strTruthy a.html_content = false)
    (ht : strTruthy a.text_content = false) :
    send_email hs a = .error (.valueError msgMissingBody) := by
  simp [send_email, hk, hs2, hh, ht]

/-- Witness for C1: concrete headers carrying a key and sender, and a
request with neither body. -/
theorem C1_missing_body_witness :
    send_email [("x-resend-api-key", "sk"), ("x-sender-email", "me@x.com")]
        { to_emails := ["a@x.com"], subject := "Hi" } =
      .error (.valueError msgMissingBody) :=
  C1_missing_body _ _ "sk" "me@x.com" rfl rfl rfl rfl

/-- C2: for every request in which each of the three tried API-key header
spellings is missing or empty, `send_email` raises the missing-API-key
`ValueError` ("Missing X-RESEND-API-KEY header. ...") and returns no
outbound request (no outbound HTTP call is made). -/
theorem C2_missing_credential (hs : List (String × String)) (a : SendArgs)
    (h : ∀ k ∈ apiKeyHeaderNames, headerGet hs k = none ∨ headerGet hs k = some "") :
    send_email hs a = .error (.valueError msgMissingApiKey) := by
  have hk : extractApiKey hs = none :=
    (firstTruthyHeader_eq_none_iff hs apiKeyHeaderNames).mpr h
  simp [send_email, hk]

/-- Witness for C2: a request whose only credential header is empty. -/
theorem C2_missing_credential_witness :
    send_email [("x-resend-api-key", ""), ("x-sender-email", "me@x.com")]
        { to_emails := ["a@x.com"], subject := "Hi", text_content := some "hello" } =
      .error (.valueError msgMissingApiKey) :=
  C2_missing_credential _ _ (by decide)

/-- C10: the precondition checks run in a fixed order — API key first, then
sender, then body presence.  Whenever the API-key extraction fails the error
is the missing-API-key one regardless of everything else; with a credential
but no sender the error is the missing-sender one even when both bodies are
absent; in each case the result is an error, so no outbound request is
built.  The two closed conjuncts instantiate this at a request missing all
three and at one missing sender and bodies. -/
theorem C10_check_order :
    (∀ (hs : List (String × String)) (a : SendArgs), extractApiKey hs = none →
        send_email hs a = .error (.valueError msgMissingApiKey)) ∧
    (∀ (hs : List (String × String)) (a : SendArgs) (k : String),
        extractApiKey hs = some k → extractSenderEmail hs = none →
        send_email hs a = .error (.valueError msgMissingSender)) ∧
    send_email [] { to_emails := ["a@x.com"], subject := "Hi" } =
      .error (.valueError msgMissingApiKey) ∧
    send_email [("x-resend-api-key", "sk")] { to_emails := ["a@x.com"], subject := "Hi" } =
      .error (.valueError msgMissingSender) := by
  refine ⟨?_, ?_, rfl, rfl⟩
  · intro hs a hk
    simp [send_email, hk]
  · intro hs a k hk hsnd
    simp [send_email, hk, hsnd]

/-- Witness for C10: the two universal conjuncts applied at concrete
requests, with their hypotheses discharged by evaluation. -/
theorem C10_check_order_witness :
    send_email [("x-api-key", "sk")] { to_emails := ["a@x.com"], subject := "Hi" } =
      .error (.valueError msgMissingApiKey) ∧
    send_email [("X-Resend-Api-Key", "sk")]
        { to_emails := ["a@x.com"], subject := "Hi", html_content := some "<p>x</p>" } =
      .error (.valueError msgMissingSender) :=
  ⟨C10_check_order.1 _ _ rfl, C10_check_order.2.1 _ _ "sk" rfl rfl⟩

/-- Keys contributed by an `Optional[str]` payload entry. -/
theorem strEntry_keys (k : String) (v : Option String) :
    (strEntry k v).map Prod.fst = if strTruthy v then [k] else [] := by
  cases v with
  | none => rfl
  | some s =>
    by_cases h : s = "" <;> simp [strEntry, strTruthy, h]

/-- Keys contributed by an `Optional[list[str]]` payload entry. -/
theorem strListEntry_keys (k : String) (v : Option (List String)) :
    (strListEntry k v).map Prod.fst = if listTruthy v then [k] else [] := by
  cases v with
  | none => rfl
  | some l =>
    by_cases h : l.isEmpty <;> simp [strListEntry, listTruthy, h]

/-- Keys contributed by the `reply_to` payload entry. -/
theorem replyToEntry_keys (v : Option ReplyTo) :
    (replyToEntry v).map Prod.fst = if replyTruthy v then ["reply_to"] else [] := by
  match v with
  | none => rfl
  | some (.single s) =>
    by_cases h : s = "" <;> simp [replyToEntry, replyTruthy, h]
  | some (.multiple l) =>
    by_cases h : l.isEmpty <;> simp [replyToEntry, replyTruthy, h]

/-- Keys contributed by an `Optional[list[dict]]` payload entry. -/
theorem jsonListEntry_keys (k : String) (v : Option (List Json)) :
    (jsonListEntry k v).map Prod.fst = if listTruthy v then [k] else [] := by
  cases v with
  | none => rfl
  | some l =>
    by_cases h : l.isEmpty <;> simp [jsonListEntry, listTruthy, h]

/-- C3: for `to_emails=["a@x.com"], subject="Hi", text_content="hello"` and
all other optional fields absent, the outbound payload is exactly
`from`/`to`/`subject`/`text` with those values; and in general the payload's
key list is `from`, `to`, `subject` followed by each optional key exactly
when the corresponding argument is truthy (supplied and non-empty), hence
optional keys appear only when the argument was supplied. -/
theorem C3_payload_shape :
    (∀ sender : String,
        buildPayload sender { to_emails := ["a@x.com"], subject := "Hi",
                              text_content := some "hello" } =
          [("from", Json.str sender), ("to", Json.arr [Json.str "a@x.com"]),
           ("subject", Json.str "Hi"), ("text", Json.str "hello")]) ∧
    (∀ (sender : String) (a : SendArgs),
        (buildPayload sender a).map Prod.fst =
          ["from", "to", "subject"]
          ++ (if strTruthy a.html_content then ["html"] else [])
          ++ (if strTruthy a.text_content then ["text"] else [])
          ++ (if listTruthy a.cc_emails then ["cc"] else [])
          ++ (if listTruthy a.bcc_emails then ["bcc"] else [])
          ++ (if replyTruthy a.reply_to then ["reply_to"] else [])
          ++ (if strTruthy a.scheduled_at then ["scheduled_at"] else [])
          ++ (if listTruthy a.attachments then ["attachments"] else [])
          ++ (if listTruthy a.tags then ["tags"] else [])) := by
  constructor
  · intro sender
    rfl
  · intro sender a
    simp only [buildPayload, List.map_append, strEntry_keys, strListEntry_keys,
      replyToEntry_keys, jsonListEntry_keys, List.map_cons, List.map_nil]

/-- C4: every provider response with a 2xx status and a JSON-parseable body
yields exactly that parsed body as the returned result; in particular a 200
response with body `\x7b"id": "abc123"\x7d` returns `\x7b"id": "abc123"\x7d`
unchanged. -/
theorem C4_success_passthrough :
    (∀ (r : ResendResponse) (j : Json), 200 ≤ r.status_code → r.status_code < 300 →
        r.jsonBody = some j → handleResponse r = .ok j) ∧
    handleResponse ⟨200, some (Json.obj [("id", Json.str "abc123")]), "\x7b\"id\": \"abc123\"\x7d"⟩ =
      .ok (Json.obj [("id", Json.str "abc123")]) := by
  constructor
  · intro r j h1 h2 hj
    simp [handleResponse, h1, h2, hj]
  · simp [handleResponse]

/-- Witness for C4: the universal conjunct applied at a concrete 204
response. -/
theorem C4_success_passthrough_witness :
    handleResponse ⟨204, some Json.null, ""⟩ = .ok Json.null :=
  C4_success_passthrough.1 ⟨204, some Json.null, ""⟩ Json.null (by decide) (by decide) rfl

/-- C5 counterexample: the claim asserts the raised error carries the
provider's HTTP status.  But the raised `ValueError` message is
`"Resend API error: <message>"` with no status in it: a 500 response and a
502 response with the same body raise the identical error, and the digits
"500" appear nowhere in it, so the error cannot carry the status. -/
theorem C5_counterexample :
    handleResponse ⟨500, some (Json.obj [("message", Json.str "boom")]), "raw"⟩ =
      .error (.valueError "Resend API error: boom") ∧
    handleResponse ⟨502, some (Json.obj [("message", Json.str "boom")]), "raw"⟩ =
      .error (.valueError "Resend API error: boom") ∧
    ¬ ("500".toList <:+: ("Resend API error: boom").toList) := by
  refine ⟨?_, ?_, by decide⟩ <;>
    simp [handleResponse, error_message, lookupField, providerErrMsg, pyStr]

/-- C5 (amended): on every non-2xx response the dispatcher raises a
`ValueError` whose message embeds the provider's message — taken from the
JSON body's `message` field, falling back to the raw response text when the
body is not parseable JSON — labelled as an authentication failure for
status 401/403 and as a plain provider error otherwise; the numeric status
itself is only logged, not carried in the error.  In particular a 401
response with body `\x7b"message": "invalid key"\x7d` raises the
authentication-flavoured error, whose message contains "invalid key". -/
theorem C5_provider_error (st : Nat) (fields : List (String × Json))
    (m text : String)
    (h2 : ¬ (200 ≤ st ∧ st < 300))
    (hm : lookupField fields "message" = some (Json.str m)) :
    handleResponse ⟨st, some (Json.obj fields), text⟩ =
      .error (.valueError (if st = 401 ∨ st = 403 then authFailedMsg m
                           else providerErrMsg m)) ∧
    (∀ (st2 : Nat) (text2 : String), ¬ (200 ≤ st2 ∧ st2 < 300) →
        handleResponse ⟨st2, none, text2⟩ =
          .error (.valueError (if st2 = 401 ∨ st2 = 403 then authFailedMsg text2
                               else providerErrMsg text2))) ∧
    handleResponse ⟨401, some (Json.obj [("message", Json.str "invalid key")]), "t"⟩ =
      .error (.valueError (authFailedMsg "invalid key")) ∧
    (∃ p q, authFailedMsg "invalid key" = p ++ "invalid key" ++ q) := by
  refine ⟨?_, ?_, ?_, "Authentication failed: ",
    ". Please check your API key and sender domain verification.", by decide⟩
  · by_cases h4 : st = 401 ∨ st = 403 <;>
      simp [handleResponse, error_message, hm, pyStr, h2, h4]
  · intro st2 text2 h2b
    by_cases h4 : st2 = 401 ∨ st2 = 403 <;>
      simp [handleResponse, error_message, h2b, h4]
  · simp [handleResponse, error_message, lookupField, pyStr]

/-- Witness for C5: the amended theorem applied at a concrete 500 response
with a JSON `message` field. -/
theorem C5_provider_error_witness :
    handleResponse ⟨500, some (Json.obj [("message", Json.str "boom")]), "raw"⟩ =
      .error (.valueError (if (500 : Nat) = 401 ∨ (500 : Nat) = 403
                           then authFailedMsg "boom" else providerErrMsg "boom")) ∧
    handleResponse ⟨404, none, "not found"⟩ =
      .error (.valueError (if (404 : Nat) = 401 ∨ (404 : Nat) = 403
                           then authFailedMsg "not found" else providerErrMsg "not found")) :=
  ⟨(C5_provider_error 500 [("message", Json.str "boom")] "boom" "raw"
      (by decide) rfl).1,
   (C5_provider_error 500 [("message", Json.str "boom")] "boom" "raw"
      (by decide) rfl).2.1 404 "not found" (by decide)⟩

/-- C6 counterexample: the claim asserts the credential is accepted under
the header name `x-api-key` and that header names match case-insensitively.
But a request carrying the credential only under `x-api-key` (with a valid
sender header) is rejected with the missing-API-key error, and the casing
`X-RESEND-api-key` — not one of the three literal spellings the code tries —
is not found either. -/
theorem C6_counterexample :
    send_email [("x-api-key", "sk_test_123"), ("x-sender-email", "me@example.com")]
        { to_emails := ["a@x.com"], subject := "Hi", text_content := some "hello" } =
      .error (.valueError msgMissingApiKey) ∧
    extractApiKey [("X-RESEND-api-key", "sk_test_123")] = none :=
  ⟨rfl, rfl⟩

/-- C6 (amended): the credential is read from the first non-empty header
among the exact spellings `x-resend-api-key`, `X-RESEND-API-KEY`,
`X-Resend-Api-Key`, and the sender from the exact spellings
`x-sender-email`, `X-SENDER-EMAIL`, `X-Sender-Email`; each of these
spellings is accepted, and a request none of whose header names is among
the three tried spellings yields no credential (resp. no sender) — in
particular `x-api-key` and other casings are never consulted. -/
theorem C6_header_names (v : String) (hv : v ≠ "") :
    extractApiKey [("x-resend-api-key", v)] = some v ∧
    extractApiKey [("X-RESEND-API-KEY", v)] = some v ∧
    extractApiKey [("X-Resend-Api-Key", v)] = some v ∧
    extractSenderEmail [("x-sender-email", v)] = some v ∧
    extractSenderEmail [("X-SENDER-EMAIL", v)] = some v ∧
    extractSenderEmail [("X-Sender-Email", v)] = some v ∧
    (∀ hs : List (String × String), (∀ p ∈ hs, p.1 ∉ apiKeyHeaderNames) →
        extractApiKey hs = none) ∧
    (∀ hs : List (String × String), (∀ p ∈ hs, p.1 ∉ senderHeaderNames) →
        extractSenderEmail hs = none) := by
  refine ⟨?_, ?_, ?_, ?_, ?_, ?_, ?_, ?_⟩
  · simp [extractApiKey, apiKeyHeaderNames, firstTruthyHeader, headerGet, hv]
  · simp [extractApiKey, apiKeyHeaderNames, firstTruthyHeader, headerGet, hv]
  · simp [extractApiKey, apiKeyHeaderNames, firstTruthyHeader, headerGet, hv]
  · simp [extractSenderEmail, senderHeaderNames, firstTruthyHeader, headerGet, hv]
  · simp [extractSenderEmail, senderHeaderNames, firstTruthyHeader, headerGet, hv]
  · simp [extractSenderEmail, senderHeaderNames, firstTruthyHeader, headerGet, hv]
  · intro hs hnot
    rw [extractApiKey, firstTruthyHeader_eq_none_iff]
    intro k hk
    exact Or.inl (headerGet_eq_none hs k (fun p hp he => hnot p hp (he ▸ hk)))
  · intro hs hnot
    rw [extractSenderEmail, firstTruthyHeader_eq_none_iff]
    intro k hk
    exact Or.inl (headerGet_eq_none hs k (fun p hp he => hnot p hp (he ▸ hk)))

/-- Witness for C6: the amended theorem at a concrete non-empty value and a
concrete unrelated header list. -/
theorem C6_header_names_witness :
    extractApiKey [("x-resend-api-key", "sk")] = some "sk" ∧
    extractApiKey [("x-api-key", "sk")] = none :=
  ⟨(C6_header_names "sk" (by decide)).1,
   (C6_header_names "sk" (by decide)).2.2.2.2.2.2.1
     [("x-api-key", "sk")] (by decide)⟩

/-- C7: every request that passes validation produces exactly one outbound
request (the `.ok` value of `send_email` is the single request the code then
posts), a `POST` to `https://api.resend.com/emails` with request headers
`Content-Type: application/json` and `Authorization: Bearer <credential>`
(the credential extracted from the inbound headers) and a 30-second client
timeout. -/
theorem C7_outbound_request (hs : List (String × String)) (a : SendArgs)
    (r : OutboundRequest) (h : send_email hs a = .ok r) :
    r.method = "POST" ∧
    r.url = "https://api.resend.com/emails" ∧
    r.timeoutSeconds = 30 ∧
    ∃ k, extractApiKey hs = some k ∧
      r.headers = [("Content-Type", "application/json"),
                   ("Authorization", "Bearer " ++ k)] := by
  unfold send_email at h
  split at h
  next => exact absurd h (by simp)
  next k hk =>
    split at h
    next => exact absurd h (by simp)
    next s hsnd =>
      split at h
      next => exact absurd h (by simp)
      next hb =>
        have hr : r = send_email_via_resend k s a := by
          injection h with h'
          exact h'.symm
        subst hr
        exact ⟨rfl, rfl, rfl, k, hk, rfl⟩

/-- Witness for C7: a concrete valid request. -/
theorem C7_outbound_request_witness :
    (send_email_via_resend "sk" "me@x.com"
        { to_emails := ["a@x.com"], subject := "Hi", text_content := some "hello" }).method
      = "POST" ∧
    (send_email_via_resend "sk" "me@x.com"
        { to_emails := ["a@x.com"], subject := "Hi", text_content := some "hello" }).url
      = "https://api.resend.com/emails" ∧
    (send_email_via_resend "sk" "me@x.com"
        { to_emails := ["a@x.com"], subject := "Hi", text_content := some "hello" }).timeoutSeconds
      = 30 ∧
    ∃ k, extractApiKey [("x-resend-api-key", "sk"), ("x-sender-email", "me@x.com")] = some k ∧
      (send_email_via_resend "sk" "me@x.com"
          { to_emails := ["a@x.com"], subject := "Hi", text_content := some "hello" }).headers
        = [("Content-Type", "application/json"), ("Authorization", "Bearer " ++ k)] :=
  C7_outbound_request [("x-resend-api-key", "sk"), ("x-sender-email", "me@x.com")]
    { to_emails := ["a@x.com"], subject := "Hi", text_content := some "hello" }
    (send_email_via_resend "sk" "me@x.com"
      { to_emails := ["a@x.com"], subject := "Hi", text_content := some "hello" })
    rfl

set_option maxRecDepth 20000 in
/-- C8: template lookup for the token `"123-Main-St"` yields a subject
string with no literal brace characters (`\x7b`, `\x7d`) and a text body
that ends with — hence contains — the literal token value `"123-Main-St"`. -/
theorem C8_template_concrete :
    (∃ hdoc, get_email_template "123-Main-St" =
        Json.obj [("subject", Json.str "Inquiry regarding 123-Main-St"),
                  ("html", hdoc),
                  ("text", Json.str
                    ("Hello,\n\nI am writing to express my interest in this property and would like to schedule a viewing at your earliest convenience.\n\nI look forward to hearing from you soon.\n\nBest regards\n\n---\nRegarding: "
                      ++ "123-Main-St"))]) ∧
    ("Inquiry regarding 123-Main-St").toList.all
      (fun c => c ≠ '\x7b' && c ≠ '\x7d') = true := by
  refine ⟨⟨Json.str (pyStrip (templateHtml "123-Main-St")), ?_⟩, by decide⟩
  have h1 : "Inquiry regarding " ++ "123-Main-St" = "Inquiry regarding 123-Main-St" := by
    decide
  have h2 : pyStrip (templateText "123-Main-St") =
      "Hello,\n\nI am writing to express my interest in this property and would like to schedule a viewing at your earliest convenience.\n\nI look forward to hearing from you soon.\n\nBest regards\n\n---\nRegarding: "
        ++ "123-Main-St" := by
    decide
  rw [get_email_template, h1, h2]

/-- C9: template lookup is a total Lean function of the token alone
(deterministic, no I/O, no failure, which the embedding makes intrinsic),
and for every token its result is a JSON object whose keys are exactly
`subject`, `html`, `text` — so `subject` and `text` are always present and
`html` is the only further key. -/
theorem C9_template_pure (t : String) :
    ∃ s h x, get_email_template t =
      Json.obj [("subject", Json.str s), ("html", Json.str h), ("text", Json.str x)] :=
  ⟨_, _, _, rfl⟩

/-- Witness for C9: the theorem applied at the source's default token. -/
theorem C9_template_pure_witness :
    ∃ s h x, get_email_template "the property" =
      Json.obj [("subject", Json.str s), ("html", Json.str h), ("text", Json.str x)] :=
  C9_template_pure "the property"

end ResendMcp
